import Mathlib

/-!
Verification of the dp-system-call-logs synchronization engine.

Shallow embedding of the sync core (src/backend/src/sync): the retry
executor (retry.js, lines 52-97), the phone normalizer and the main sync
pipeline (sync.js, second revision, lines 646-1439), the state manager
(state.js) and the orchestrator (engine.js). Remote calls (Dialpad fetch,
Airtable writes, libphonenumber parsing) are modelled as explicit oracle
parameters; the JavaScript control flow around them is translated
line by line. Machine timestamps are Int milliseconds; Math.floor on a
division is Int.fdiv.
-/

namespace DPSync

/-! ## Retry executor (retry.js, lines 52-97)

The JS loop runs attempt = 1 .. retries; on success it returns, on the
final attempt it rethrows the last error, otherwise it sleeps and loops.
The callee fn is modelled as a map from the attempt number to an outcome;
the result records the value or error together with how many times fn ran.
If retries = 0 the loop body never runs and the trailing statement throws
the still-undefined lastError, modelled as error none. -/

structure RetryResult (E A : Type) where
  result : Except (Option E) A
  calls : Nat

def retryGo {E A : Type} (fn : Nat → Except E A) (retries : Nat) (attempt : Nat)
    (lastError : Option E) : RetryResult E A :=
  if _h : retries < attempt then
    ⟨Except.error lastError, 0⟩
  else
    match fn attempt with
    | Except.ok a => ⟨Except.ok a, 1⟩
    | Except.error e =>
      if attempt = retries then
        ⟨Except.error (some e), 1⟩
      else
        let r := retryGo fn retries (attempt + 1) (some e)
        ⟨r.result, r.calls + 1⟩
termination_by retries + 1 - attempt
decreasing_by omega

def retryRun {E A : Type} (fn : Nat → Except E A) (retries : Nat := 5) : RetryResult E A :=
  retryGo fn retries 1 none

/-! ## Phone normalizer (sync.js, lines 1136-1145)

normalizePhone wraps parsePhoneNumber in a try/catch: falsy input (null,
undefined, empty string) gives null, a throwing parse gives null, a falsy
parse result gives null, otherwise the E.164 rendering is returned. The
library call is an oracle: it can throw, return a falsy value, or return
an object whose E.164 format is a given string. The default region is
closed over by the oracle. -/

inductive ParseOutcome where
  | threw : ParseOutcome
  | returnedNone : ParseOutcome
  | parsedTo : String → ParseOutcome
deriving DecidableEq

def normalizePhone (parse : String → ParseOutcome) (number : Option String) : Option String :=
  match number with
  | none => none
  | some s =>
    if s = "" then none
    else
      match parse s with
      | ParseOutcome.threw => none
      | ParseOutcome.returnedNone => none
      | ParseOutcome.parsedTo e164 => some e164

/-! ## Data model of the sync pipeline (sync.js, lines 1152-1424)

A Call is the raw item of one Dialpad page; optional fields are those the
JS reads defensively. A CallRecord is the Airtable write payload built at
lines 1300-1310 together with the dynamically named customer-link and
unmatched-phone fields set at lines 1341-1347; the Recording URL block
(lines 1316-1338, a regex plus a remote share-link call that never
throws) is abstracted as an oracle from the call to the final field
value. JS truthiness on strings (empty string is falsy) and on numbers
(zero is falsy) is made explicit. -/

structure Call where
  id : Option String
  call_id : Option String
  date_started : Int
  date_ended : Option Int
  duration : Option Int
  external_number : Option String
  direction : Option String
  contact_name : Option String
  target_name : Option String
  was_recorded : Bool
  mos_score : Option Int
deriving DecidableEq

structure CallRecord where
  callId : String
  direction : String
  startTime : Int
  endTime : Option Int
  durationS : Int
  contactName : String
  target : String
  wasRecorded : Bool
  mosScore : Option Int
  recordingUrl : Option String
  customerLink : Option (List String)
  unmatchedPhone : Option String
deriving DecidableEq

def truthyStr : Option String → Bool
  | none => false
  | some s => if s = "" then false else true

def jsOrStr (o : Option String) (d : String) : String :=
  match o with
  | none => d
  | some s => if s = "" then d else s

def jsOrNullInt (o : Option Int) : Option Int :=
  match o with
  | none => none
  | some v => if v = 0 then none else some v

def jsTruthyInt : Option Int → Bool
  | none => false
  | some v => if v = 0 then false else true

def jsShowOptStr : Option String → String
  | none => "undefined"
  | some s => s

/- formatDuration (sync.js, lines 1148-1150): Math.floor((ms or 0) / 1000). -/
def formatDuration (ms : Option Int) : Int :=
  Int.fdiv (ms.getD 0) 1000

/- Call ID fallback chain (line 1289): call.id, else call.call_id, else a
template string from date_started and external_number. -/
def callIdOf (c : Call) : String :=
  if truthyStr c.id then jsShowOptStr c.id
  else if truthyStr c.call_id then jsShowOptStr c.call_id
  else toString c.date_started ++ "_" ++ jsShowOptStr c.external_number

/-! ## Customer directory map (sync.js, lines 1170-1182)

A JS Map with string keys: set replaces the value of an existing key in
place (last write wins), otherwise appends the new binding. -/

def mapSet (m : List (String × String)) (k v : String) : List (String × String) :=
  if m.any (fun p => p.1 == k) then m.map (fun p => if p.1 = k then (k, v) else p)
  else m ++ [(k, v)]

def mapGet (m : List (String × String)) (k : String) : Option String :=
  (m.find? (fun p => p.1 == k)).map Prod.snd

structure Customer where
  id : String
  phone : Option String
deriving DecidableEq

def buildCustomerPhoneMap (normalize : Option String → Option String)
    (customers : List Customer) : List (String × String) :=
  customers.foldl
    (fun m customer =>
      if truthyStr customer.phone then
        match normalize customer.phone with
        | some normalized => if normalized = "" then m else mapSet m normalized customer.id
        | none => m
      else m)
    []

/-! ## Per-call transform (sync.js, lines 1287-1350)

normalize stands for normalizePhone with the parse oracle applied; recOr
stands for the recording share-link block. The match block at lines
1341-1347: a truthy normalized phone present in the map links the
customer, any other case stores the raw external number (or the literal
Unknown) in the unmatched-phone field. -/

def transformCall (normalize : Option String → Option String) (recOr : Call → Option String)
    (phoneMap : List (String × String)) (c : Call) : CallRecord :=
  let externalNumber := c.external_number
  let normalized := normalize externalNumber
  let matchPair : Option (List String) × Option String :=
    match normalized with
    | some np =>
      if np = "" then (none, some (jsOrStr externalNumber "Unknown"))
      else
        match mapGet phoneMap np with
        | some cid => (some [cid], none)
        | none => (none, some (jsOrStr externalNumber "Unknown"))
    | none => (none, some (jsOrStr externalNumber "Unknown"))
  { callId := callIdOf c
    direction := if c.direction = some "inbound" then "Inbound" else "Outbound"
    startTime := c.date_started
    endTime := if jsTruthyInt c.date_ended then c.date_ended else none
    durationS := formatDuration c.duration
    contactName := jsOrStr c.contact_name "Unknown"
    target := jsOrStr c.target_name "N/A"
    wasRecorded := c.was_recorded
    mosScore := jsOrNullInt c.mos_score
    recordingUrl := recOr c
    customerLink := matchPair.1
    unmatchedPhone := matchPair.2 }

/-! ## Pagination loop (sync.js, lines 1250-1397)

The do/while loop, one recursion step per iteration. The fetch oracle
stands for dialpad.getCalls at the fixed resolved window: it receives the
cursor (null on the first page) and either returns a page or throws. Per
iteration the JS increments pageCount, fetches, breaks on an empty page,
transforms every item, attempts the Airtable upsert (write failures are
swallowed at lines 1364-1367, so the records attempted are accumulated
unconditionally), writes the watermark value floor(now / 1000), breaks
once pageCount reaches maxPages, and loops while the next cursor is
truthy. A fetch failure on page 1 propagates; on a later page it breaks
with the state accumulated so far (pageCount still counts the failed
attempt). The fuel argument only bounds the recursion depth: it starts
at maxPages and cannot run out before the pageCount bound fires. -/

structure FetchResult where
  items : List Call
  cursor : Option String
deriving DecidableEq

structure LoopState where
  pageCount : Nat
  totalCalls : Nat
  matchedCalls : Nat
  upserted : List CallRecord
  watermarkWrites : List Int
deriving DecidableEq

def initialLoopState : LoopState := ⟨0, 0, 0, [], []⟩

def maxPagesLimit : Nat := 200

def pageMatched (recs : List CallRecord) : Nat :=
  (recs.filter (fun r => r.customerLink.isSome)).length

def syncLoop (fetch : Option String → Except String FetchResult)
    (transform : Call → CallRecord) (nowMs : Int) (maxPages : Nat) :
    Nat → Option String → LoopState → Except String LoopState
  | 0, _, st => Except.ok st
  | fuel + 1, cursor, st =>
    let pageCount := st.pageCount + 1
    match fetch cursor with
    | Except.error e =>
      if 1 < pageCount then Except.ok { st with pageCount := pageCount }
      else Except.error e
    | Except.ok res =>
      if res.items.isEmpty then Except.ok { st with pageCount := pageCount }
      else
        let recs := res.items.map transform
        let st' : LoopState :=
          { pageCount := pageCount
            totalCalls := st.totalCalls + recs.length
            matchedCalls := st.matchedCalls + pageMatched recs
            upserted := st.upserted ++ recs
            watermarkWrites := st.watermarkWrites ++ [Int.fdiv nowMs 1000] }
        if maxPages ≤ pageCount then Except.ok st'
        else if truthyStr res.cursor then
          syncLoop fetch transform nowMs maxPages fuel res.cursor st'
        else Except.ok st'

structure SyncResult where
  success : Bool
  totalCalls : Nat
  matchedCalls : Nat
  unmatchedCalls : Nat
  pagesProcessed : Nat
deriving DecidableEq

/- The success return value at lines 1412-1418. -/
def resultOfState (st : LoopState) : SyncResult :=
  ⟨true, st.totalCalls, st.matchedCalls, st.totalCalls - st.matchedCalls, st.pageCount⟩

/- sync from the resolved window on (lines 1225-1423): the guard at lines
1225-1239 returns the zero no-op result when startedAfter is at or past
startedBefore, otherwise the pagination loop runs and its final state is
packaged; a loop error (first-page fetch failure) propagates out. -/
def syncRunStates (fetch : Option String → Except String FetchResult)
    (transform : Call → CallRecord) (nowMs startedAfter startedBefore : Int) :
    Except String LoopState :=
  if startedBefore ≤ startedAfter then Except.ok initialLoopState
  else syncLoop fetch transform nowMs maxPagesLimit maxPagesLimit none initialLoopState

def sync (fetch : Option String → Except String FetchResult)
    (transform : Call → CallRecord) (nowMs startedAfter startedBefore : Int) :
    Except String SyncResult :=
  (syncRunStates fetch transform nowMs startedAfter startedBefore).map resultOfState

/-! ## Window resolver (sync.js, lines 1184-1222)

The branch structure of the window determination: a configured explicit
time range wins (its value comes from getTimeRangeWindow, left abstract
here as a given pair); otherwise continuous mode (realtimeOnly or
daysBack = 0) starts from the watermark minus the backfill grace when a
watermark exists and from the start of the local day otherwise; the
historical branch clamps to now minus daysBack. getStartOfToday and now
are Date-derived and passed in as parameters. The watermark is persisted
in epoch seconds and scaled to milliseconds at line 1186. -/

structure SyncModeConfig where
  realtimeOnly : Bool
  daysBack : Nat
  backfillGraceSeconds : Int
deriving DecidableEq

def resolveWindow (cfg : SyncModeConfig) (timeRangeWindow : Option (Int × Int))
    (lastSyncedS : Int) (startOfToday nowMs : Int) : Int × Int :=
  let lastSyncedMs := lastSyncedS * 1000
  let backfillGraceMs := cfg.backfillGraceSeconds * 1000
  match timeRangeWindow with
  | some w => w
  | none =>
    if cfg.realtimeOnly || cfg.daysBack == 0 then
      if 0 < lastSyncedMs then (lastSyncedMs - backfillGraceMs, nowMs)
      else (startOfToday, nowMs)
    else
      let daysBackMs : Int := (cfg.daysBack : Int) * 24 * 60 * 60 * 1000
      (max (nowMs - daysBackMs)
        (if 0 < lastSyncedMs then lastSyncedMs - backfillGraceMs else nowMs - daysBackMs),
       nowMs)

/-! ## Orchestrator (engine.js)

SyncEngine.run around one completed sync call: the guard on isSyncing,
then either the success path (prepend the record, truncate the history to
100 when it exceeds 100) or the failure path (prepend the error record
with no truncation and rethrow); isSyncing is cleared in the finally
block in both paths. The sync call itself is passed in as its outcome.
getStatus projects the newest ten history entries; the persisted-state
read it also performs is not claim-relevant and is omitted. -/

inductive RunRecord where
  | ok : SyncResult → Nat → RunRecord
  | failed : String → Nat → RunRecord
deriving DecidableEq

structure EngineState where
  isSyncing : Bool
  lastSyncResult : Option RunRecord
  syncHistory : List RunRecord
deriving DecidableEq

def initialEngineState : EngineState := ⟨false, none, []⟩

inductive RunReply where
  | alreadyInProgress : RunReply
  | completed : RunRecord → RunReply
  | raised : String → RunReply
deriving DecidableEq

def engineRun (st : EngineState) (outcome : Except String SyncResult) (duration : Nat) :
    EngineState × RunReply :=
  if st.isSyncing then (st, RunReply.alreadyInProgress)
  else
    match outcome with
    | Except.ok result =>
      let record := RunRecord.ok result duration
      let hist0 := record :: st.syncHistory
      let hist := if 100 < hist0.length then hist0.take 100 else hist0
      (⟨false, some record, hist⟩, RunReply.completed record)
    | Except.error msg =>
      let record := RunRecord.failed msg duration
      (⟨false, some record, record :: st.syncHistory⟩, RunReply.raised msg)

def engineRunMany (st : EngineState)
    (outcomes : List (Except String SyncResult × Nat)) : EngineState :=
  outcomes.foldl (fun s o => (engineRun s o.1 o.2).1) st

structure StatusReply where
  isSyncing : Bool
  lastSync : Option RunRecord
  history : List RunRecord
deriving DecidableEq

def engineGetStatus (st : EngineState) : StatusReply :=
  ⟨st.isSyncing, st.lastSyncResult, st.syncHistory.take 10⟩

/-! ## Concrete scenario inputs used by counterexamples and witnesses -/

def parseThrew : String → ParseOutcome := fun _ => ParseOutcome.threw

def recNone : Call → Option String := fun _ => none

def dummyCall : Call :=
  { id := some "call-a", call_id := none, date_started := 500000, date_ended := none,
    duration := none, external_number := none, direction := some "inbound",
    contact_name := none, target_name := none, was_recorded := false, mos_score := none }

def transformPlain : Call → CallRecord :=
  transformCall (normalizePhone parseThrew) recNone []

/- Page 1 returns 50 calls and a next cursor; the page 2 fetch throws. -/
def fetchTwoPagesFail : Option String → Except String FetchResult :=
  fun cursor =>
    match cursor with
    | none => Except.ok ⟨List.replicate 50 dummyCall, some "cursor-2"⟩
    | some _ => Except.error "network error on page 2"

/- Three non-empty pages with cursor sequence cursor-a, cursor-b, null. -/
def fetchThreeCursors : Option String → Except String FetchResult :=
  fun cursor =>
    if cursor = none then Except.ok ⟨[dummyCall], some "cursor-a"⟩
    else if cursor = some "cursor-a" then Except.ok ⟨[dummyCall], some "cursor-b"⟩
    else if cursor = some "cursor-b" then Except.ok ⟨[dummyCall], none⟩
    else Except.error "unexpected cursor"

/- A provider that always returns one more page. -/
def fetchEndless : Option String → Except String FetchResult :=
  fun _ => Except.ok ⟨[dummyCall], some "more"⟩

/-! ## Provider traces

fetchChain fetch cursor pages states that, starting from the given
cursor, the provider answers the successive fetches of the loop with
exactly the listed pages: each entry carries the non-empty item list of
one page and the truthy next cursor handed back with it. lastCursor is
the cursor left pending after those pages, the one the next fetch
receives. These predicates only describe oracle behavior; they add no
program code. -/

def fetchChain (fetch : Option String → Except String FetchResult) :
    Option String → List (List Call × String) → Prop
  | _, [] => True
  | cursor, (items, c) :: rest =>
    fetch cursor = Except.ok ⟨items, some c⟩ ∧ items ≠ [] ∧ c ≠ "" ∧
      fetchChain fetch (some c) rest

def lastCursor : Option String → List (List Call × String) → Option String
  | cursor, [] => cursor
  | _, (_, c) :: rest => lastCursor (some c) rest

end DPSync

namespace DPSync

/-- Helper for C3: a run of retryGo over an always-failing fn makes one
call per remaining attempt and ends with the error of attempt retries. -/
theorem retryGo_always_fails {E A : Type} (fn : Nat → Except E A) (errs : Nat → E)
    (hfail : ∀ i, fn i = Except.error (errs i)) (retries : Nat) :
    ∀ fuel attempt lastErr, attempt + fuel = retries → 1 ≤ attempt →
    retryGo fn retries attempt lastErr =
      ⟨Except.error (some (errs retries)), fuel + 1⟩ := by
  intro fuel
  induction fuel with
  | zero =>
    intro attempt lastErr hsum h1
    rw [retryGo]
    rw [dif_neg (by omega)]
    rw [hfail attempt]
    simp only
    rw [if_pos (by omega)]
    have : attempt = retries := by omega
    subst this
    rfl
  | succ n ih =>
    intro attempt lastErr hsum h1
    rw [retryGo]
    rw [dif_neg (by omega)]
    rw [hfail attempt]
    simp only
    rw [if_neg (by omega)]
    rw [ih (attempt + 1) (some (errs attempt)) (by omega) (by omega)]

/-- C3: for an operation that fails on every attempt, retry invokes fn
exactly N times where N is the configured retry count (default 5), and
the error finally raised is the error thrown by the last (N-th) attempt. -/
theorem retry_exhausts_attempts {E A : Type} (fn : Nat → Except E A) (errs : Nat → E)
    (retries : Nat) (hN : 1 ≤ retries)
    (hfail : ∀ i, fn i = Except.error (errs i)) :
    retryRun fn retries = ⟨Except.error (some (errs retries)), retries⟩ := by
  have h := retryGo_always_fails fn errs hfail retries (retries - 1) 1 none (by omega) (by omega)
  rw [retryRun, h]
  congr 1
  omega

/-- Witness for C3 at the default retry count 5: an always-failing
operation indexed by its attempt number is called 5 times and the raised
error carries the attempt-5 error value. -/
theorem retry_exhausts_attempts_witness :
    retryRun (fun i => (Except.error i : Except Nat Nat)) 5 =
      ⟨Except.error (some 5), 5⟩ :=
  retry_exhausts_attempts (fun i => Except.error i) (fun i => i) 5 (by decide)
    (fun _ => rfl)

/-- C7: normalizePhone returns null on null input, on empty input and on
any parse failure (the library throwing, or returning a falsy value, as
for malformed input or a region mismatch), and it never throws: it is a
total function into Option String by construction. -/
theorem normalizePhone_null_on_bad_input (parse : String → ParseOutcome) (s : String)
    (hbad : parse s = ParseOutcome.threw ∨ parse s = ParseOutcome.returnedNone) :
    normalizePhone parse none = none ∧
    normalizePhone parse (some "") = none ∧
    normalizePhone parse (some s) = none := by
  refine ⟨rfl, rfl, ?_⟩
  unfold normalizePhone
  rcases hbad with h | h <;>
    { by_cases hs : s = "" <;> simp [hs, h] }

/-- Witness for C7: a letters-only input on which the parse oracle
throws, as libphonenumber does on text with no digits. -/
theorem normalizePhone_null_on_bad_input_witness :
    normalizePhone (fun _ => ParseOutcome.threw) none = none ∧
    normalizePhone (fun _ => ParseOutcome.threw) (some "") = none ∧
    normalizePhone (fun _ => ParseOutcome.threw) (some "hello") = none :=
  normalizePhone_null_on_bad_input (fun _ => ParseOutcome.threw) "hello" (Or.inl rfl)

/-- C5: when the resolved window has start at or past end, sync returns
the success no-op result with zero total, matched and unmatched calls and
zero pages processed, and raises no error. -/
theorem sync_noop_window (fetch : Option String → Except String FetchResult)
    (transform : Call → CallRecord) (nowMs a b : Int) (h : b ≤ a) :
    sync fetch transform nowMs a b = Except.ok ⟨true, 0, 0, 0, 0⟩ := by
  unfold sync syncRunStates
  rw [if_pos h]
  rfl

/-- Witness for C5 at the degenerate window with start = end = 5. -/
theorem sync_noop_window_witness :
    (5 : Int) ≤ 5 ∧
    sync fetchEndless transformPlain 0 5 5 = Except.ok ⟨true, 0, 0, 0, 0⟩ :=
  ⟨le_refl 5, sync_noop_window fetchEndless transformPlain 0 5 5 (le_refl 5)⟩

/-- C6: in continuous mode (no explicit time range configured, and
realtimeOnly set or daysBack = 0), a positive persisted watermark T0
(epoch seconds) yields the window from T0 minus the backfill grace to
now, and a missing watermark (read back as 0) yields the window from the
start of the current local day to now. -/
theorem resolveWindow_continuous (cfg : SyncModeConfig) (T0 startOfToday nowMs : Int)
    (hmode : cfg.realtimeOnly = true ∨ cfg.daysBack = 0) :
    (0 < T0 → resolveWindow cfg none T0 startOfToday nowMs =
      (T0 * 1000 - cfg.backfillGraceSeconds * 1000, nowMs)) ∧
    (T0 = 0 → resolveWindow cfg none T0 startOfToday nowMs = (startOfToday, nowMs)) := by
  have hcond : (cfg.realtimeOnly || cfg.daysBack == 0) = true := by
    rcases hmode with h | h <;> simp [h]
  constructor
  · intro hT
    unfold resolveWindow
    simp only [hcond, if_true]
    rw [if_pos (by omega : (0 : Int) < T0 * 1000)]
  · intro hT
    subst hT
    unfold resolveWindow
    simp only [hcond, if_true]
    norm_num

/-- Witness for C6: watermark 1700000000 s, grace 300 s, now 1700009999999
ms resolves to the window from 1699999700000 ms; watermark 0 resolves to
the start of today (here 1699000000000 ms). -/
theorem resolveWindow_continuous_witness :
    resolveWindow ⟨true, 0, 300⟩ none 1700000000 1699000000000 1700009999999 =
      (1700000000 * 1000 - 300 * 1000, 1700009999999) ∧
    resolveWindow ⟨true, 0, 300⟩ none 0 1699000000000 1700009999999 =
      (1699000000000, 1700009999999) :=
  ⟨(resolveWindow_continuous ⟨true, 0, 300⟩ 1700000000 1699000000000 1700009999999
      (Or.inl rfl)).1 (by decide),
   (resolveWindow_continuous ⟨true, 0, 300⟩ 0 1699000000000 1700009999999
      (Or.inl rfl)).2 rfl⟩

/-- C10: getStatus exposes exactly the first ten entries of the internal
run history (which is kept newest-first), so its history field never
holds more than ten run results. -/
theorem getStatus_history_bounded (st : EngineState) :
    (engineGetStatus st).history = st.syncHistory.take 10 ∧
    (engineGetStatus st).history.length ≤ 10 := by
  refine ⟨rfl, ?_⟩
  show (st.syncHistory.take 10).length ≤ 10
  rw [List.length_take]
  omega

set_option maxRecDepth 8000 in
/-- C8 counterexample: from the fresh engine state, 100 successful runs
build a history of length 100, and one further failed run pushes it to
101 — the failure path prepends without the 100-entry truncation, so the
history length does exceed the cap after a completed (failed) run. -/
theorem engineHistory_cap_counterexample :
    (engineRunMany initialEngineState
      (List.replicate 100 ((Except.ok ⟨true, 0, 0, 0, 0⟩ : Except String SyncResult), 0) ++
        [(Except.error "boom", 0)])).syncHistory.length = 101 ∧ ¬ (101 ≤ 100) :=
  ⟨by rfl, by decide⟩

/-- C8 amended: after a completed run the newest record is at the head of
the history (most-recent-first); a successful run truncates the history
to at most 100 entries, while a failed run prepends its record without
truncation, so only then can the length exceed the cap. -/
theorem engineHistory_newest_first (st : EngineState) (h : st.isSyncing = false)
    (r : SyncResult) (msg : String) (d : Nat) :
    ((engineRun st (Except.ok r) d).1.syncHistory.head? = some (RunRecord.ok r d) ∧
      (engineRun st (Except.ok r) d).1.syncHistory.length ≤ 100) ∧
    (engineRun st (Except.error msg) d).1.syncHistory =
      RunRecord.failed msg d :: st.syncHistory := by
  refine ⟨⟨?_, ?_⟩, ?_⟩
  · unfold engineRun
    rw [h]
    simp only [Bool.false_eq_true, if_false]
    split_ifs <;> rfl
  · unfold engineRun
    rw [h]
    simp only [Bool.false_eq_true, if_false]
    split_ifs with hc
    · simp [List.length_take]
    · simp only [List.length_cons] at hc ⊢
      omega
  · unfold engineRun
    rw [h]
    simp only [Bool.false_eq_true, if_false]

/-- Witness for C8 amended at the fresh engine state. -/
theorem engineHistory_newest_first_witness :
    ((engineRun initialEngineState (Except.ok ⟨true, 0, 0, 0, 0⟩) 1).1.syncHistory.head? =
        some (RunRecord.ok ⟨true, 0, 0, 0, 0⟩ 1) ∧
      (engineRun initialEngineState (Except.ok ⟨true, 0, 0, 0, 0⟩) 1).1.syncHistory.length ≤ 100) ∧
    (engineRun initialEngineState (Except.error "boom") 1).1.syncHistory =
      RunRecord.failed "boom" 1 :: initialEngineState.syncHistory :=
  engineHistory_newest_first initialEngineState rfl ⟨true, 0, 0, 0, 0⟩ "boom" 1

/-- C4 counterexample: a fetched call with no external phone at all (the
external_number field absent) is transformed with the unmatched-phone
fallback field set to the literal Unknown, not left unset as the claim
states; the customer-link field is indeed unset. -/
theorem transform_noPhone_counterexample :
    dummyCall.external_number = none ∧
    (transformPlain dummyCall).customerLink = none ∧
    (transformPlain dummyCall).unmatchedPhone = some "Unknown" :=
  ⟨rfl, rfl, rfl⟩

/-- C4 amended: for every fetched call, exactly one of the customer-link
field and the unmatched-phone fallback field is set on the transformed
record; the customer-link is set if and only if the normalized phone is
truthy and present in the directory map, and a call with no external
phone gets the fallback field set to the literal Unknown. -/
theorem transform_match_exclusive (parse : String → ParseOutcome)
    (recOr : Call → Option String) (m : List (String × String)) (c : Call) :
    (((transformCall (normalizePhone parse) recOr m c).customerLink.isSome = true ∧
        (transformCall (normalizePhone parse) recOr m c).unmatchedPhone = none) ∨
      ((transformCall (normalizePhone parse) recOr m c).customerLink = none ∧
        (transformCall (normalizePhone parse) recOr m c).unmatchedPhone.isSome = true)) ∧
    ((transformCall (normalizePhone parse) recOr m c).customerLink.isSome = true ↔
      ∃ np, normalizePhone parse c.external_number = some np ∧ np ≠ "" ∧
        (mapGet m np).isSome = true) ∧
    (c.external_number = none →
      (transformCall (normalizePhone parse) recOr m c).customerLink = none ∧
      (transformCall (normalizePhone parse) recOr m c).unmatchedPhone = some "Unknown") := by
  cases hn : normalizePhone parse c.external_number with
  | none =>
    refine ⟨Or.inr (by simp [transformCall, hn]), by simp [transformCall, hn], ?_⟩
    intro hext
    simp [transformCall, hext, normalizePhone, jsOrStr]
  | some np =>
    have hext : c.external_number ≠ none := by
      intro hx
      rw [hx] at hn
      simp [normalizePhone] at hn
    by_cases hnp : np = ""
    · subst hnp
      exact ⟨Or.inr (by simp [transformCall, hn]), by simp [transformCall, hn],
        fun hx => absurd hx hext⟩
    · cases hm : mapGet m np with
      | none =>
        refine ⟨Or.inr (by simp [transformCall, hn, hnp, hm]), ?_,
          fun hx => absurd hx hext⟩
        simp [transformCall, hn, hnp, hm]
      | some cid =>
        refine ⟨Or.inl (by simp [transformCall, hn, hnp, hm]), ?_,
          fun hx => absurd hx hext⟩
        simp [transformCall, hn, hnp, hm]

/-- Helper: one loop iteration whose fetch throws on the very first page
(pageCount still 0) propagates the error. -/
theorem syncLoop_err_first (fetch : Option String → Except String FetchResult)
    (transform : Call → CallRecord) (nowMs : Int) (mp fuel : Nat)
    (cursor : Option String) (st : LoopState) (e : String)
    (hpc : st.pageCount = 0) (he : fetch cursor = Except.error e) :
    syncLoop fetch transform nowMs mp (fuel + 1) cursor st = Except.error e := by
  simp only [syncLoop, he, hpc]
  norm_num

/-- Helper: one loop iteration whose fetch throws after at least one page
breaks, keeping the accumulated state and counting the failed attempt. -/
theorem syncLoop_err_later (fetch : Option String → Except String FetchResult)
    (transform : Call → CallRecord) (nowMs : Int) (mp fuel : Nat)
    (cursor : Option String) (st : LoopState) (e : String)
    (hpc : 1 ≤ st.pageCount) (he : fetch cursor = Except.error e) :
    syncLoop fetch transform nowMs mp (fuel + 1) cursor st =
      Except.ok { st with pageCount := st.pageCount + 1 } := by
  simp only [syncLoop, he]
  rw [if_pos (by omega)]

/-- Helper: one loop iteration over a non-empty page with a truthy next
cursor and the page bound not yet reached recurses on the updated state. -/
theorem syncLoop_page_step (fetch : Option String → Except String FetchResult)
    (transform : Call → CallRecord) (nowMs : Int) (mp fuel : Nat)
    (cursor : Option String) (st : LoopState) (x : Call) (xs : List Call) (c : String)
    (hf : fetch cursor = Except.ok ⟨x :: xs, some c⟩) (hc : c ≠ "")
    (hmp : st.pageCount + 1 < mp) :
    syncLoop fetch transform nowMs mp (fuel + 1) cursor st =
      syncLoop fetch transform nowMs mp fuel (some c)
        { pageCount := st.pageCount + 1
          totalCalls := st.totalCalls + ((x :: xs).map transform).length
          matchedCalls := st.matchedCalls + pageMatched ((x :: xs).map transform)
          upserted := st.upserted ++ (x :: xs).map transform
          watermarkWrites := st.watermarkWrites ++ [Int.fdiv nowMs 1000] } := by
  simp only [syncLoop, hf, List.isEmpty_cons, Bool.false_eq_true, if_false]
  rw [if_neg (by omega), if_pos (by simp [truthyStr, hc])]

/-- Helper: one loop iteration over a non-empty page whose next cursor is
falsy, or with the page bound reached, finalizes the updated state. -/
theorem syncLoop_page_last (fetch : Option String → Except String FetchResult)
    (transform : Call → CallRecord) (nowMs : Int) (mp fuel : Nat)
    (cursor : Option String) (st : LoopState) (x : Call) (xs : List Call)
    (cur : Option String) (hf : fetch cursor = Except.ok ⟨x :: xs, cur⟩)
    (hstop : truthyStr cur = false ∨ mp ≤ st.pageCount + 1) :
    syncLoop fetch transform nowMs mp (fuel + 1) cursor st =
      Except.ok
        { pageCount := st.pageCount + 1
          totalCalls := st.totalCalls + ((x :: xs).map transform).length
          matchedCalls := st.matchedCalls + pageMatched ((x :: xs).map transform)
          upserted := st.upserted ++ (x :: xs).map transform
          watermarkWrites := st.watermarkWrites ++ [Int.fdiv nowMs 1000] } := by
  simp only [syncLoop, hf, List.isEmpty_cons, Bool.false_eq_true, if_false]
  rcases hstop with hcur | hbound
  · by_cases hb : mp ≤ st.pageCount + 1
    · rw [if_pos hb]
    · rw [if_neg hb, hcur]
      simp
  · rw [if_pos hbound]

/-- Helper for C9: a completed loop run increases pageCount by at most
one per unit of fuel. -/
theorem syncLoop_pageCount_le (fetch : Option String → Except String FetchResult)
    (transform : Call → CallRecord) (nowMs : Int) (mp : Nat) :
    ∀ fuel cursor st st', syncLoop fetch transform nowMs mp fuel cursor st = Except.ok st' →
      st'.pageCount ≤ st.pageCount + fuel := by
  intro fuel
  induction fuel with
  | zero =>
    intro cursor st st' h
    simp only [syncLoop, Except.ok.injEq] at h
    subst h
    omega
  | succ n ih =>
    intro cursor st st' h
    simp only [syncLoop] at h
    cases hf : fetch cursor with
    | error e =>
      rw [hf] at h
      simp only at h
      split_ifs at h with h1
      all_goals
        first
        | exact Except.noConfusion h
        | · simp only [Except.ok.injEq] at h
            subst h
            show st.pageCount + 1 ≤ st.pageCount + (n + 1)
            omega
    | ok res =>
      rw [hf] at h
      simp only at h
      split_ifs at h with h1 h2 h3
      · simp only [Except.ok.injEq] at h
        subst h
        show st.pageCount + 1 ≤ st.pageCount + (n + 1)
        omega
      · simp only [Except.ok.injEq] at h
        subst h
        show st.pageCount + 1 ≤ st.pageCount + (n + 1)
        omega
      · have h5 := ih res.cursor _ st' h
        have h6 : st'.pageCount ≤ st.pageCount + 1 + n := h5
        omega
      · simp only [Except.ok.injEq] at h
        subst h
        show st.pageCount + 1 ≤ st.pageCount + (n + 1)
        omega

/-- Helper for C2: appending the constant watermark value keeps the write
log a list of copies of that value. -/
theorem writes_append_constant (v : Int) (w : List Int)
    (hw : w = List.replicate w.length v) :
    w ++ [v] = List.replicate (w ++ [v]).length v := by
  conv_lhs => rw [hw]
  simp [List.replicate_succ']

/-- Helper for C2: every watermark value a completed loop run appends is
floor(now / 1000), so the write log stays a list of copies of it. -/
theorem syncLoop_watermark_replicate (fetch : Option String → Except String FetchResult)
    (transform : Call → CallRecord) (nowMs : Int) (mp : Nat) :
    ∀ fuel cursor st st', syncLoop fetch transform nowMs mp fuel cursor st = Except.ok st' →
      st.watermarkWrites = List.replicate st.watermarkWrites.length (Int.fdiv nowMs 1000) →
      st'.watermarkWrites = List.replicate st'.watermarkWrites.length (Int.fdiv nowMs 1000) := by
  intro fuel
  induction fuel with
  | zero =>
    intro cursor st st' h hw
    simp only [syncLoop, Except.ok.injEq] at h
    subst h
    exact hw
  | succ n ih =>
    intro cursor st st' h hw
    simp only [syncLoop] at h
    cases hf : fetch cursor with
    | error e =>
      rw [hf] at h
      simp only at h
      split_ifs at h with h1
      all_goals
        first
        | exact Except.noConfusion h
        | · simp only [Except.ok.injEq] at h
            subst h
            exact hw
    | ok res =>
      rw [hf] at h
      simp only at h
      split_ifs at h with h1 h2 h3
      · simp only [Except.ok.injEq] at h
        subst h
        exact hw
      · simp only [Except.ok.injEq] at h
        subst h
        exact writes_append_constant _ _ hw
      · exact ih res.cursor _ st' h (writes_append_constant _ _ hw)
      · simp only [Except.ok.injEq] at h
        subst h
        exact writes_append_constant _ _ hw

set_option maxRecDepth 8000 in
/-- C2 counterexample: page 1 succeeds with 50 calls whose instants are
all 500000 ms and the page 2 fetch throws; the only persisted watermark
write is 1000 epoch seconds, that is 1000000 ms, the full requested
window end — it lies beyond the latest instant actually covered by the
processed page (500000 ms), so the persisted watermark does not reflect
page-1 completion. -/
theorem watermark_counterexample :
    (syncRunStates fetchTwoPagesFail transformPlain 1000000 0 1000000).map
        (fun st => (st.watermarkWrites, st.upserted.map CallRecord.startTime)) =
      Except.ok ([1000], List.replicate 50 500000) ∧
    ¬ ((1000 : Int) * 1000 ≤ 500000) :=
  ⟨rfl, by decide⟩

/-- C2 amended: the watermark is advanced once after each processed page,
but the value written is always floor(now / 1000) — the end of the
requested window at run start — regardless of how far pagination
actually got; on a later-page failure the persisted watermark therefore
equals the full requested window end, not the completion point of the
pages processed. -/
theorem watermark_always_run_start (fetch : Option String → Except String FetchResult)
    (transform : Call → CallRecord) (nowMs a b : Int) (st : LoopState)
    (h : syncRunStates fetch transform nowMs a b = Except.ok st) :
    st.watermarkWrites = List.replicate st.watermarkWrites.length (Int.fdiv nowMs 1000) := by
  unfold syncRunStates at h
  split_ifs at h with hg
  · simp only [Except.ok.injEq] at h
    subst h
    rfl
  · exact syncLoop_watermark_replicate fetch transform nowMs maxPagesLimit maxPagesLimit
      none initialLoopState st h rfl

set_option maxRecDepth 8000 in
/-- Witness for C2 amended on a completed three-page run with now =
1000000 ms: all three writes equal floor(1000000 / 1000). -/
theorem watermark_always_run_start_witness :
    ([(1000 : Int), 1000, 1000] : List Int) =
      List.replicate (([(1000 : Int), 1000, 1000] : List Int)).length (Int.fdiv 1000000 1000) :=
  watermark_always_run_start fetchThreeCursors transformPlain 1000000 0 1000000
    ⟨3, 3, 0, [transformPlain dummyCall, transformPlain dummyCall, transformPlain dummyCall],
      [1000, 1000, 1000]⟩ (by rfl)

set_option maxRecDepth 8000 in
/-- C1 counterexample: page 1 fetch succeeds with 50 calls written and the
page 2 fetch throws; the run result reports pagesProcessed = 2 (the
failed fetch attempt is counted by the pageCount increment that precedes
the fetch), not pagesProcessed = 1 as the claim states. -/
theorem sync_laterPageFailure_counterexample :
    (sync fetchTwoPagesFail transformPlain 1000000 0 1000000).map
        SyncResult.pagesProcessed = Except.ok 2 ∧ 2 ≠ 1 :=
  ⟨rfl, by decide⟩

/-- Helper for C1: after the loop has answered any chain of processed
pages, a fetch failure on the next attempt finalizes the run with the
accumulated state: pageCount grows by one per processed page plus one for
the failed attempt, and the totals are the sums over the processed
pages. -/
theorem syncLoop_chain_then_err (fetch : Option String → Except String FetchResult)
    (transform : Call → CallRecord) (nowMs : Int) (mp : Nat) (e : String) :
    ∀ pages fuel cursor st,
      fetchChain fetch cursor pages →
      fetch (lastCursor cursor pages) = Except.error e →
      st.pageCount + pages.length + 1 ≤ mp →
      pages.length + 1 ≤ fuel →
      1 ≤ st.pageCount + pages.length →
      ∃ st', syncLoop fetch transform nowMs mp fuel cursor st = Except.ok st' ∧
        st'.pageCount = st.pageCount + pages.length + 1 ∧
        st'.totalCalls = st.totalCalls + (pages.map (fun p => p.1.length)).sum ∧
        st'.matchedCalls =
          st.matchedCalls + (pages.map (fun p => pageMatched (p.1.map transform))).sum := by
  intro pages
  induction pages with
  | nil =>
    intro fuel cursor st hchain hlast hmp hfuel hlater
    obtain ⟨f, rfl⟩ : ∃ f, fuel = f + 1 := ⟨fuel - 1, by omega⟩
    have hpc : 1 ≤ st.pageCount := by simpa using hlater
    refine ⟨_, syncLoop_err_later fetch transform nowMs mp f cursor st e hpc hlast,
      ?_, ?_, ?_⟩ <;> simp
  | cons p rest ih =>
    intro fuel cursor st hchain hlast hmp hfuel hlater
    obtain ⟨items, c⟩ := p
    obtain ⟨hf, hne, hc, hrest⟩ := hchain
    obtain ⟨f, rfl⟩ : ∃ f, fuel = f + 1 := ⟨fuel - 1, by omega⟩
    obtain ⟨x, xs, rfl⟩ := List.exists_cons_of_ne_nil hne
    have hlen : ((x :: xs, c) :: rest).length = rest.length + 1 := rfl
    rw [syncLoop_page_step fetch transform nowMs mp f cursor st x xs c hf hc (by omega)]
    obtain ⟨st', hrun, hpc, htot, hmat⟩ := ih f (some c)
      { pageCount := st.pageCount + 1,
        totalCalls := st.totalCalls + ((x :: xs).map transform).length,
        matchedCalls := st.matchedCalls + pageMatched ((x :: xs).map transform),
        upserted := st.upserted ++ (x :: xs).map transform,
        watermarkWrites := st.watermarkWrites ++ [Int.fdiv nowMs 1000] }
      hrest hlast
      (by show st.pageCount + 1 + rest.length + 1 ≤ mp; omega)
      (by omega)
      (by show 1 ≤ st.pageCount + 1 + rest.length; omega)
    refine ⟨st', hrun, ?_, ?_, ?_⟩
    · rw [hpc, hlen]
      show st.pageCount + 1 + rest.length + 1 = st.pageCount + (rest.length + 1) + 1
      omega
    · rw [htot]
      show st.totalCalls + ((x :: xs).map transform).length +
          (rest.map (fun p => p.1.length)).sum =
        st.totalCalls + (((x :: xs, c) :: rest).map (fun p => p.1.length)).sum
      simp only [List.map_cons, List.sum_cons, List.length_map, List.length_cons]
      omega
    · rw [hmat]
      show st.matchedCalls + pageMatched ((x :: xs).map transform) +
          (rest.map (fun p => pageMatched (p.1.map transform))).sum =
        st.matchedCalls +
          (((x :: xs, c) :: rest).map (fun p => pageMatched (p.1.map transform))).sum
      simp only [List.map_cons, List.sum_cons]
      omega

/-- C1 amended: if the first page fetch fails, sync propagates that error
and the run aborts; if the fetch of any later page fails — after any
non-empty chain of processed pages (a failed attempt at page k exists
only for k within the 200-page bound) — pagination stops but all pages
already processed are preserved and finalized, and the run result
reports success with the summed counts from the processed pages, while
pagesProcessed reports the number of fetch attempts including the failed
one: one more than the pages processed, hence 2 (not 1) when page 1
succeeds with 50 calls and the page-2 fetch throws. -/
theorem sync_pagination_failure_policy (fetch : Option String → Except String FetchResult)
    (transform : Call → CallRecord) (nowMs a b : Int) (hw : a < b) :
    (∀ e, fetch none = Except.error e →
      sync fetch transform nowMs a b = Except.error e) ∧
    (∀ pages e, pages ≠ [] → pages.length + 1 ≤ maxPagesLimit →
      fetchChain fetch none pages →
      fetch (lastCursor none pages) = Except.error e →
      sync fetch transform nowMs a b =
        Except.ok ⟨true, (pages.map (fun p => p.1.length)).sum,
          (pages.map (fun p => pageMatched (p.1.map transform))).sum,
          (pages.map (fun p => p.1.length)).sum -
            (pages.map (fun p => pageMatched (p.1.map transform))).sum,
          pages.length + 1⟩) := by
  constructor
  · intro e he
    unfold sync syncRunStates
    rw [if_neg (by omega : ¬ b ≤ a)]
    rw [show (maxPagesLimit : Nat) = 199 + 1 from rfl]
    rw [syncLoop_err_first fetch transform nowMs (199 + 1) 199 none initialLoopState e rfl he]
    rfl
  · intro pages e hpages hbound hchain hlast
    have hlen : 1 ≤ pages.length := by
      cases pages with
      | nil => exact absurd rfl hpages
      | cons q qs => simp
    obtain ⟨st', hrun, hpc, htot, hmat⟩ :=
      syncLoop_chain_then_err fetch transform nowMs maxPagesLimit e pages maxPagesLimit
        none initialLoopState hchain hlast (by simpa [initialLoopState] using hbound)
        hbound (by simpa [initialLoopState] using hlen)
    unfold sync syncRunStates
    rw [if_neg (by omega : ¬ b ≤ a), hrun]
    show Except.ok (resultOfState st') = _
    unfold resultOfState
    rw [hpc, htot, hmat]
    simp [initialLoopState]

set_option maxRecDepth 8000 in
/-- Witness for C1 amended: the concrete provider whose page 1 returns 50
calls with cursor cursor-2 and whose page 2 fetch throws. -/
theorem sync_pagination_failure_policy_witness :
    sync fetchTwoPagesFail transformPlain 1000000 0 1000000 =
      Except.ok ⟨true, 50, 0, 50, 2⟩ := by
  have h := (sync_pagination_failure_policy fetchTwoPagesFail transformPlain 1000000 0 1000000
      (by decide)).2 [(List.replicate 50 dummyCall, "cursor-2")] "network error on page 2"
      (by decide) (by decide) ⟨rfl, by decide, by decide, trivial⟩ rfl
  have hm : pageMatched ((List.replicate 50 dummyCall).map transformPlain) = 0 := by decide
  simp only [List.map_cons, List.map_nil, List.sum_cons, List.sum_nil, List.length_replicate,
    List.length_cons, List.length_nil, hm] at h
  exact h

set_option maxRecDepth 20000 in
/-- C9: with provider cursors c1, c2, null over three successive non-empty
pages the loop performs exactly 3 page fetches and stops (pageCount
counts one fetch per iteration); every completed run performs at most
maxPagesLimit = 200 fetches (an aborted run performs exactly one); and a
provider that always hands back another cursor still yields a successful
run stopping at exactly 200 fetches — the bound is a warning outcome,
not an error. -/
theorem pagination_terminates (fetch : Option String → Except String FetchResult)
    (transform : Call → CallRecord) (nowMs a b : Int)
    (i1 i2 i3 : List Call) (c1 c2 : String) (hw : a < b)
    (h1 : fetch none = Except.ok ⟨i1, some c1⟩) (hn1 : i1 ≠ []) (hc1 : c1 ≠ "")
    (h2 : fetch (some c1) = Except.ok ⟨i2, some c2⟩) (hn2 : i2 ≠ []) (hc2 : c2 ≠ "")
    (h3 : fetch (some c2) = Except.ok ⟨i3, none⟩) (hn3 : i3 ≠ []) :
    (∃ st, syncRunStates fetch transform nowMs a b = Except.ok st ∧ st.pageCount = 3) ∧
    (∀ g st', syncRunStates g transform nowMs a b = Except.ok st' →
      st'.pageCount ≤ maxPagesLimit) ∧
    (syncRunStates fetchEndless transformPlain 1000000 0 1000000).map LoopState.pageCount =
      Except.ok maxPagesLimit := by
  refine ⟨?_, ?_, ?_⟩
  · obtain ⟨x1, xs1, rfl⟩ := List.exists_cons_of_ne_nil hn1
    obtain ⟨x2, xs2, rfl⟩ := List.exists_cons_of_ne_nil hn2
    obtain ⟨x3, xs3, rfl⟩ := List.exists_cons_of_ne_nil hn3
    unfold syncRunStates
    rw [if_neg (by omega : ¬ b ≤ a)]
    rw [show (maxPagesLimit : Nat) = 199 + 1 from rfl]
    rw [syncLoop_page_step fetch transform nowMs (199 + 1) 199 none initialLoopState x1 xs1 c1
      h1 hc1 (by norm_num [initialLoopState])]
    rw [show (199 : Nat) = 198 + 1 from rfl]
    rw [syncLoop_page_step fetch transform nowMs (198 + 1 + 1) 198 (some c1) _ x2 xs2 c2
      h2 hc2 (by norm_num [initialLoopState])]
    rw [show (198 : Nat) = 197 + 1 from rfl]
    rw [syncLoop_page_last fetch transform nowMs (197 + 1 + 1 + 1) 197 (some c2) _ x3 xs3 none
      h3 (Or.inl rfl)]
    exact ⟨_, rfl, rfl⟩
  · intro g st' hst
    unfold syncRunStates at hst
    split_ifs at hst with hg
    · simp only [Except.ok.injEq] at hst
      subst hst
      norm_num [initialLoopState, maxPagesLimit]
    · have h5 := syncLoop_pageCount_le g transform nowMs maxPagesLimit maxPagesLimit
        none initialLoopState st' hst
      simpa [initialLoopState] using h5
  · rfl

/-- Witness for C9 on the concrete three-cursor provider. -/
theorem pagination_terminates_witness :
    (syncRunStates fetchThreeCursors transformPlain 1000000 0 1000000).map
      LoopState.pageCount = Except.ok 3 := by
  obtain ⟨st, hst, hpc⟩ := (pagination_terminates fetchThreeCursors transformPlain 1000000 0
    1000000 [dummyCall] [dummyCall] [dummyCall] "cursor-a" "cursor-b" (by decide)
    rfl (by decide) (by decide) rfl (by decide) (by decide) rfl (by decide)).1
  rw [hst]
  simp [Except.map, hpc]

end DPSync
